import Mathlib

/-!
Verification of the context-accessor hooks of the todo application
(`src/frontend/src/hooks/useTask.ts` and `src/frontend/src/hooks/useUI.ts`).

Each hook reads its context container via `useContext` and then runs

    if (!context) { throw new Error('<hook> must be used within a <Provider>') }
    return context

The embedding models JavaScript runtime values (with their truthiness),
the ambient pair of context containers, and each hook as an explicit
state-passing function returning `Except` for the throw.
-/

namespace TodoHooks

/-- A JavaScript runtime value, as far as the hooks can observe one:
`undefined`, `null`, booleans, numbers (with `NaN` kept apart), strings,
and opaque object references (identified by a tag; every object is truthy). -/
inductive JSValue where
  | undefined : JSValue
  | null : JSValue
  | bool : Bool → JSValue
  | num : Int → JSValue
  | nan : JSValue
  | str : String → JSValue
  | obj : Nat → JSValue
deriving DecidableEq

/-- JavaScript truthiness: `undefined`, `null`, `false`, `0`, `NaN` and the
empty string are falsy; everything else (in particular every object) is truthy.
This is the test the source performs with `if (!context)`. -/
def JSValue.truthy : JSValue → Bool
  | .undefined => false
  | .null => false
  | .bool b => b
  | .num x => x != 0
  | .nan => false
  | .str s => !(s == "")
  | .obj _ => true

/-- A thrown JavaScript `Error`, observed through its message
(`throw new Error('...')` in the source). -/
structure JSError where
  message : String
deriving DecidableEq

/-- The error thrown by `useTask` (useTask.ts line 16). -/
def taskMissingError : JSError := ⟨"useTask must be used within a TaskProvider"⟩

/-- The error thrown by `useUI` (useUI.ts line 15). -/
def uiMissingError : JSError := ⟨"useUI must be used within a UIProvider"⟩

/-- The ambient state the hooks read: the value currently held by the
`TaskContext` container and the value currently held by the `UIContext`
container, at the call site. -/
structure Ambient where
  taskContainer : JSValue
  uiContainer : JSValue
deriving DecidableEq

/-- Modelled from the spec: the context modules (`@/context/TaskContext`,
`@/context/UIContext`) and React itself are outside the excerpt. Per the
spec, the container is "of some shape `T | undefined`", it is "created when
a Provider mounts", and "if a caller is rendered outside the corresponding
Provider's subtree, the Container is undefined". So the absence of a
`TaskProvider` in the ancestry is the task container holding `undefined`. -/
def noTaskProvider (amb : Ambient) : Prop :=
  amb.taskContainer = JSValue.undefined

/-- Modelled from the spec: absence of a `UIProvider` in the ancestry is the
UI container holding `undefined` (see `noTaskProvider`). -/
def noUIProvider (amb : Ambient) : Prop :=
  amb.uiContainer = JSValue.undefined

/-- `useTask` (useTask.ts lines 12-20), with the ambient state threaded
explicitly: read the task container (`useContext(TaskContext)`, a pure
synchronous read), throw `taskMissingError` when the value is falsy
(`if (!context) throw ...`), otherwise return the value unchanged.
The second component is the ambient state after the call. -/
def useTask (amb : Ambient) : Except JSError JSValue × Ambient :=
  let context := amb.taskContainer
  if !context.truthy then
    (Except.error taskMissingError, amb)
  else
    (Except.ok context, amb)

/-- `useUI` (useUI.ts lines 11-19): same shape as `useTask`, reading the UI
container and throwing `uiMissingError` when it is falsy. -/
def useUI (amb : Ambient) : Except JSError JSValue × Ambient :=
  let context := amb.uiContainer
  if !context.truthy then
    (Except.error uiMissingError, amb)
  else
    (Except.ok context, amb)

/-- The generic accessor pattern of the spec (section 4.1), "instantiated
twice": read the given container value from ambient scope, fail with a
descriptive error naming the hook and the missing Provider when it is
absent, otherwise return it unchanged. Used only to compare the two hooks
against a single template. -/
def genericAccessor (hookName providerName : String) (context : JSValue) :
    Except JSError JSValue :=
  if !context.truthy then
    Except.error ⟨hookName ++ " must be used within a " ++ providerName⟩
  else
    Except.ok context

/-- C1 counterexample: the claim "for every non-undefined context value S the
hook returns exactly S" fails at S = `null`: `null` is not `undefined`, yet
`useTask` with the task container holding `null` does not return `null`
(it throws, because `!null` is true in JavaScript). -/
theorem useTask_not_identity_on_null :
    JSValue.null ≠ JSValue.undefined ∧
    (useTask ⟨JSValue.null, JSValue.obj 0⟩).1 ≠ Except.ok JSValue.null := by
  refine ⟨by decide, ?_⟩
  intro h
  simp [useTask, JSValue.truthy] at h

/-- C1 (amended): for every truthy context value S, `useTask` with the task
container holding S returns exactly S, with no transformation; likewise
`useUI` returns exactly the truthy UI container value it reads. -/
theorem useTask_useUI_identity_on_truthy (amb : Ambient) :
    (amb.taskContainer.truthy = true → (useTask amb).1 = Except.ok amb.taskContainer) ∧
    (amb.uiContainer.truthy = true → (useUI amb).1 = Except.ok amb.uiContainer) := by
  constructor <;> intro h <;> simp [useTask, useUI, h]

/-- C1 witness: at the ambient state holding object 1 in the task container
and object 2 in the UI container, the hooks return those objects. -/
theorem useTask_useUI_identity_on_truthy_witness :
    (useTask ⟨JSValue.obj 1, JSValue.obj 2⟩).1 = Except.ok (JSValue.obj 1) ∧
    (useUI ⟨JSValue.obj 1, JSValue.obj 2⟩).1 = Except.ok (JSValue.obj 2) :=
  ⟨(useTask_useUI_identity_on_truthy ⟨JSValue.obj 1, JSValue.obj 2⟩).1 (by decide),
   (useTask_useUI_identity_on_truthy ⟨JSValue.obj 1, JSValue.obj 2⟩).2 (by decide)⟩

/-- C2 counterexample: the claim "the accessor throws if and only if the
container is absent (undefined)" fails when the task container holds `null`:
the container is not absent, yet `useTask` throws. -/
theorem useTask_throws_on_present_null :
    (⟨JSValue.null, JSValue.undefined⟩ : Ambient).taskContainer ≠ JSValue.undefined ∧
    (useTask ⟨JSValue.null, JSValue.undefined⟩).1 = Except.error taskMissingError :=
  ⟨by decide, rfl⟩

/-- C2 (amended): when the container is absent (undefined) the hook always
fails with the missing-Provider error; the hook throws if and only if its
container is falsy (not: if and only if it is absent); whenever it returns,
the result is truthy, hence never `undefined`, falsy, or a default. -/
theorem useTask_useUI_throw_iff_falsy (amb : Ambient) :
    (amb.taskContainer = JSValue.undefined →
      (useTask amb).1 = Except.error taskMissingError) ∧
    ((useTask amb).1 = Except.error taskMissingError ↔ amb.taskContainer.truthy = false) ∧
    (∀ v, (useTask amb).1 = Except.ok v → v.truthy = true) ∧
    (amb.uiContainer = JSValue.undefined →
      (useUI amb).1 = Except.error uiMissingError) ∧
    ((useUI amb).1 = Except.error uiMissingError ↔ amb.uiContainer.truthy = false) ∧
    (∀ v, (useUI amb).1 = Except.ok v → v.truthy = true) := by
  by_cases ht : amb.taskContainer.truthy <;>
    by_cases hu : amb.uiContainer.truthy <;>
      refine ⟨fun h => ?_, ?_, fun v hv => ?_, fun h => ?_, ?_, fun v hv => ?_⟩ <;>
        simp_all [useTask, useUI, JSValue.truthy]

/-- C2 witness: with both containers absent, both hooks fail with their
missing-Provider errors. -/
theorem useTask_useUI_throw_iff_falsy_witness :
    (useTask ⟨JSValue.undefined, JSValue.undefined⟩).1 = Except.error taskMissingError ∧
    (useUI ⟨JSValue.undefined, JSValue.undefined⟩).1 = Except.error uiMissingError :=
  ⟨(useTask_useUI_throw_iff_falsy ⟨JSValue.undefined, JSValue.undefined⟩).1 rfl,
   (useTask_useUI_throw_iff_falsy ⟨JSValue.undefined, JSValue.undefined⟩).2.2.2.1 rfl⟩

/-- C3 counterexample: the claim "when the container is present (non-absent)
the hook never throws" fails when the UI container holds `false`: the
container is present, yet the error branch of `useUI` is reached. -/
theorem useUI_error_branch_reachable_when_present :
    (⟨JSValue.obj 0, JSValue.bool false⟩ : Ambient).uiContainer ≠ JSValue.undefined ∧
    (∃ e, (useUI ⟨JSValue.obj 0, JSValue.bool false⟩).1 = Except.error e) :=
  ⟨by decide, ⟨uiMissingError, rfl⟩⟩

/-- C3 (amended): the missing-Provider error is the only failure mode of the
accessors — any error either hook throws is its missing-Provider error — and
under the precondition that the container is truthy (not merely present),
the hook never throws: the error branch is unreachable. -/
theorem missingProviderError_only_failure (amb : Ambient) :
    (∀ e, (useTask amb).1 = Except.error e → e = taskMissingError) ∧
    (∀ e, (useUI amb).1 = Except.error e → e = uiMissingError) ∧
    (amb.taskContainer.truthy = true → ∀ e, (useTask amb).1 ≠ Except.error e) ∧
    (amb.uiContainer.truthy = true → ∀ e, (useUI amb).1 ≠ Except.error e) := by
  by_cases ht : amb.taskContainer.truthy <;>
    by_cases hu : amb.uiContainer.truthy <;>
      simp [useTask, useUI, ht, hu]

/-- C3 witness: with truthy object containers, `useTask` does not throw the
missing-Provider error. -/
theorem missingProviderError_only_failure_witness :
    (useTask ⟨JSValue.obj 0, JSValue.obj 0⟩).1 ≠ Except.error taskMissingError :=
  (missingProviderError_only_failure ⟨JSValue.obj 0, JSValue.obj 0⟩).2.2.1
    (by decide) taskMissingError

/-- C4: when no TaskProvider is in the ancestry (so the task container is
undefined), `useTask` throws the error whose message is exactly
"useTask must be used within a TaskProvider". -/
theorem useTask_missing_provider_message (amb : Ambient) (h : noTaskProvider amb) :
    (useTask amb).1 = Except.error taskMissingError ∧
    taskMissingError.message = "useTask must be used within a TaskProvider" := by
  unfold noTaskProvider at h
  exact ⟨by simp [useTask, h, JSValue.truthy], rfl⟩

/-- C4 witness: with the task container undefined and a UI Provider present,
`useTask` throws the descriptive TaskProvider error. -/
theorem useTask_missing_provider_message_witness :
    (useTask ⟨JSValue.undefined, JSValue.obj 3⟩).1 = Except.error taskMissingError ∧
    taskMissingError.message = "useTask must be used within a TaskProvider" :=
  useTask_missing_provider_message ⟨JSValue.undefined, JSValue.obj 3⟩ rfl

/-- C5: the two accessors are independent: for any two ambient states that
agree on the UI container, `useUI` produces the same outcome, regardless of
the task container; symmetrically, the outcome of `useTask` depends only on
the task container. -/
theorem accessors_noninterference (a b : Ambient) :
    (a.uiContainer = b.uiContainer → (useUI a).1 = (useUI b).1) ∧
    (a.taskContainer = b.taskContainer → (useTask a).1 = (useTask b).1) := by
  constructor <;> intro h
  · by_cases hc : b.uiContainer.truthy <;> simp [useUI, h, hc]
  · by_cases hc : b.taskContainer.truthy <;> simp [useTask, h, hc]

/-- C5 witness: `useUI` gives the same outcome whether the task container is
absent or holds an object, as long as the UI container is the same. -/
theorem accessors_noninterference_witness :
    (useUI ⟨JSValue.undefined, JSValue.obj 5⟩).1 = (useUI ⟨JSValue.obj 9, JSValue.obj 5⟩).1 :=
  (accessors_noninterference ⟨JSValue.undefined, JSValue.obj 5⟩
    ⟨JSValue.obj 9, JSValue.obj 5⟩).1 rfl

/-- C6: the accessors are deterministic: calling a hook again, in the state
left behind by a first call on a fixed ambient state, gives a result equal
to the first call's result. -/
theorem accessors_deterministic (amb : Ambient) :
    (useTask (useTask amb).2).1 = (useTask amb).1 ∧
    (useUI (useUI amb).2).1 = (useUI amb).1 := by
  by_cases ht : amb.taskContainer.truthy <;>
    by_cases hu : amb.uiContainer.truthy <;>
      simp [useTask, useUI, ht, hu]

/-- C7: the accessors are pure reads: whether a call returns or throws, the
ambient state after the call is unchanged. -/
theorem accessors_pure_frame (amb : Ambient) :
    (useTask amb).2 = amb ∧ (useUI amb).2 = amb := by
  by_cases ht : amb.taskContainer.truthy <;>
    by_cases hu : amb.uiContainer.truthy <;>
      simp [useTask, useUI, ht, hu]

/-- C8: `useTask` and `useUI` are two instantiations of one generic accessor:
each equals the generic pattern at its own hook and Provider names, and as
functions of their container value they return the value exactly together
and throw exactly together. -/
theorem accessors_generic_instantiation (v : JSValue) :
    (useTask ⟨v, v⟩).1 = genericAccessor "useTask" "TaskProvider" v ∧
    (useUI ⟨v, v⟩).1 = genericAccessor "useUI" "UIProvider" v ∧
    ((useTask ⟨v, v⟩).1 = Except.ok v ↔ (useUI ⟨v, v⟩).1 = Except.ok v) ∧
    ((∃ e, (useTask ⟨v, v⟩).1 = Except.error e) ↔
      (∃ e, (useUI ⟨v, v⟩).1 = Except.error e)) := by
  by_cases h : v.truthy <;>
    simp [useTask, useUI, genericAccessor, taskMissingError, uiMissingError, h]

/-- C8 witness: at the object container value 0, `useTask` coincides with the
generic accessor instantiated at its names. -/
theorem accessors_generic_instantiation_witness :
    (useTask ⟨JSValue.obj 0, JSValue.obj 0⟩).1 =
      genericAccessor "useTask" "TaskProvider" (JSValue.obj 0) :=
  (accessors_generic_instantiation (JSValue.obj 0)).1

/-- C9: the presence check is a JavaScript falsiness test: for every falsy
container value the hook throws its missing-Provider error, and `undefined`,
`null`, `false`, `0`, the empty string and `NaN` are all falsy — so a
Provider supplying a falsy value is indistinguishable from an absent one. -/
theorem falsy_context_throws (amb : Ambient) :
    (amb.taskContainer.truthy = false →
      (useTask amb).1 = Except.error taskMissingError) ∧
    (amb.uiContainer.truthy = false →
      (useUI amb).1 = Except.error uiMissingError) ∧
    ([JSValue.undefined, JSValue.null, JSValue.bool false, JSValue.num 0,
      JSValue.str "", JSValue.nan].all (fun v => !v.truthy) = true) := by
  refine ⟨fun h => ?_, fun h => ?_, by decide⟩ <;> simp [useTask, useUI, h]

/-- C9 witness: with the number 0 as task container and the empty string as
UI container — both present but falsy — both hooks throw. -/
theorem falsy_context_throws_witness :
    (useTask ⟨JSValue.num 0, JSValue.str ""⟩).1 = Except.error taskMissingError ∧
    (useUI ⟨JSValue.num 0, JSValue.str ""⟩).1 = Except.error uiMissingError :=
  ⟨(falsy_context_throws ⟨JSValue.num 0, JSValue.str ""⟩).1 (by decide),
   (falsy_context_throws ⟨JSValue.num 0, JSValue.str ""⟩).2.1 (by decide)⟩

/-- C10: when no UIProvider is in the ancestry, `useUI` throws the error with
message exactly "useUI must be used within a UIProvider", distinct from the
error `useTask` throws, so the two failure modes are distinguishable. -/
theorem useUI_missing_provider_message_distinct (amb : Ambient) (h : noUIProvider amb) :
    (useUI amb).1 = Except.error uiMissingError ∧
    uiMissingError.message = "useUI must be used within a UIProvider" ∧
    uiMissingError ≠ taskMissingError := by
  unfold noUIProvider at h
  exact ⟨by simp [useUI, h, JSValue.truthy], rfl, by decide⟩

/-- C10 witness: with the UI container undefined and a Task Provider present,
`useUI` throws the descriptive UIProvider error, distinct from the task one. -/
theorem useUI_missing_provider_message_distinct_witness :
    (useUI ⟨JSValue.obj 7, JSValue.undefined⟩).1 = Except.error uiMissingError ∧
    uiMissingError.message = "useUI must be used within a UIProvider" ∧
    uiMissingError ≠ taskMissingError :=
  useUI_missing_provider_message_distinct ⟨JSValue.obj 7, JSValue.undefined⟩ rfl

end TodoHooks
